import Mathlib

/-!
Shallow embedding of
`src/opentelemetry/sdk/extension/prometheus_multiprocess/provider.py`
(a Prometheus-backed OpenTelemetry metrics provider).

Python objects are modelled as records; object identity is modelled by an
allocation counter (`nextObjId`): every constructed object carries the fresh
id it was allocated with, so "the identical object" is "equal record with the
same `objId`".  Python dicts keyed by values are modelled as association
lists in insertion order; `dict.__setitem__` on an absent key appends.
Mutation is modelled by explicit state passing; `logging.warning` is modelled
as a returned `warned : Bool`; `raise` is modelled with `Except.error`.
Numeric amounts (Python int/float) are modelled as `ℚ`.
-/

namespace PromMP

/-- Association-list lookup: first pair whose key equals `key`.  Models
Python `dict.get` / `dict.__getitem__` on an insertion-ordered dict whose
keys are unique. -/
def alookup {α β : Type} [DecidableEq α] (key : α) : List (α × β) → Option β
  | [] => none
  | (k, v) :: rest => if k = key then some v else alookup key rest

theorem alookup_nil {α β : Type} [DecidableEq α] (key : α) :
    alookup (β := β) key [] = none := rfl

theorem alookup_append_none {α β : Type} [DecidableEq α] (key : α)
    (l : List (α × β)) (v : β) (h : alookup key l = none) :
    alookup key (l ++ [(key, v)]) = some v := by
  induction l with
  | nil => simp [alookup]
  | cons p rest ih =>
      rw [alookup] at h
      by_cases hk : p.1 = key
      · simp [hk] at h
      · simp only [List.cons_append, alookup, hk, if_neg hk]
        exact ih (by simpa [hk] using h)

theorem alookup_append_other {α β : Type} [DecidableEq α] (key k : α)
    (l : List (α × β)) (v : β) (h : k ≠ key) :
    alookup key (l ++ [(k, v)]) = alookup key l := by
  induction l with
  | nil => simp [alookup, h]
  | cons p rest ih =>
      by_cases hk : p.1 = key
      · simp [alookup, hk]
      · simp only [List.cons_append, alookup, hk, if_neg hk]
        exact ih

/-! ## Name sanitizer (`PrometheusMetric._sanitize`)

The source compiles `re.compile(r'[^\w]')` and applies `.sub('_', text)`:
every single character that is not a word character (alphanumeric or
underscore) is replaced by one underscore.  Since the pattern matches exactly
one character, the substitution is a character-wise map. -/

/-- One step of `NON_ALPHANUMERIC.sub('_', text)`: a character that is not
alphanumeric and not an underscore becomes an underscore. -/
def sanitizeChar (c : Char) : Char :=
  if c.isAlphanum || c == '_' then c else '_'

/-- Embedding of `PrometheusMetric._sanitize`: `re.sub(r'[^\w]', '_', text)`
replaces each non-word character with one underscore (character-wise map). -/
def sanitize (s : String) : String :=
  ⟨s.data.map sanitizeChar⟩

/-- The sanitizer as the spec sentence describes it (NOT as the source
implements it): collapse each maximal run of characters that are not
alphanumeric or underscore into a single underscore.  The boolean argument
records whether the previous character was part of an illegal run.  Stated
only to compare with `sanitize`. -/
def collapseRuns : Bool → List Char → List Char
  | _, [] => []
  | prev, c :: rest =>
      if c.isAlphanum || c == '_' then c :: collapseRuns false rest
      else if prev then collapseRuns true rest
      else '_' :: collapseRuns true rest

/-- The run-collapsing sanitizer described by the spec sentence, for
comparison with the source `sanitize`. -/
def sanitizeSpecCollapse (s : String) : String :=
  ⟨collapseRuns false s.data⟩

theorem sanitizeChar_idem (c : Char) :
    sanitizeChar (sanitizeChar c) = sanitizeChar c := by
  unfold sanitizeChar
  by_cases h : c.isAlphanum || c == '_'
  · simp [h]
  · simp [h]

/-! ## Meter: instrument registry (`PrometheusMeter._create` and friends) -/

/-- The adapter class passed to `_create` as `cls` (PrometheusCounter,
PrometheusUpDownCounter, PrometheusGauge, PrometheusHistogram). -/
inductive InstrKind
  | counter
  | upDownCounter
  | gauge
  | histogram
deriving DecidableEq, Repr

/-- Modelled from the spec: the instrument identity computed by
`_is_instrument_registered` (a method inherited from the opentelemetry API
base `Meter` class, which is not part of this repository's source):
"InstrumentIdentity — derived key: (name, kind, unit, description)";
"Name comparison is case-sensitive, taken as supplied by the caller". -/
structure InstrumentIdentity where
  name : String
  kind : InstrKind
  unit : String
  description : String
deriving DecidableEq, Repr

/-- A constructed instrument adapter (`cls(name, unit, description)` in
`_create`).  `objId` is the allocation id standing for Python object
identity; `backendName` records the name the adapter gave its backend
storage object, which per `PrometheusMetric.__init__` is the sanitized
caller-supplied name. -/
structure PInstrument where
  objId : ℕ
  kind : InstrKind
  name : String
  unit : String
  description : String
  backendName : String
deriving DecidableEq, Repr

/-- State of one `PrometheusMeter`: the `_instrument_id_instrument` dict
(insertion-ordered association list) plus the allocation counter. -/
structure MeterState where
  instrumentIdInstrument : List (InstrumentIdentity × PInstrument)
  nextObjId : ℕ
deriving DecidableEq, Repr

/-- `PrometheusMeter.__init__`: starts with an empty instrument registry. -/
def meterInit : MeterState :=
  { instrumentIdInstrument := [], nextObjId := 0 }

/-- Modelled from the spec: `_is_instrument_registered` (inherited from the
opentelemetry API base `Meter`, not in this repository's source) computes
the identity from the raw `(name, kind, unit, description)` and reports
whether the registry already holds an instrument for it. -/
def isInstrumentRegistered (st : MeterState) (name : String) (kind : InstrKind)
    (unit description : String) : Bool × InstrumentIdentity :=
  let instrumentId : InstrumentIdentity := ⟨name, kind, unit, description⟩
  ((alookup instrumentId st.instrumentIdInstrument).isSome, instrumentId)

/-- Result of `PrometheusMeter._create`: the returned instrument, whether
the duplicate-creation warning was logged, and the meter state afterwards. -/
structure CreateResult where
  instrument : PInstrument
  warned : Bool
  state : MeterState
deriving DecidableEq, Repr

/-- Embedding of `PrometheusMeter._create`: ask `_is_instrument_registered`;
if registered, log a warning and return the registry entry; otherwise
construct `cls(name, unit, description)` (allocating backend storage under
the sanitized name), insert it keyed by the identity, and return it. -/
def meterCreate (st : MeterState) (kind : InstrKind)
    (name unit description : String) : CreateResult :=
  let r := isInstrumentRegistered st name kind unit description
  if r.1 then
    { instrument := (alookup r.2 st.instrumentIdInstrument).getD
        ⟨st.nextObjId, kind, name, unit, description, sanitize name⟩,
      warned := true, state := st }
  else
    let instrument : PInstrument :=
      ⟨st.nextObjId, kind, name, unit, description, sanitize name⟩
    { instrument, warned := false,
      state := { instrumentIdInstrument :=
                   st.instrumentIdInstrument ++ [(r.2, instrument)],
                 nextObjId := st.nextObjId + 1 } }

/-- `PrometheusMeter.create_counter`. -/
def createCounter (st : MeterState) (name : String)
    (unit : String := "") (description : String := "") : CreateResult :=
  meterCreate st .counter name unit description

/-- `PrometheusMeter.create_up_down_counter`. -/
def createUpDownCounter (st : MeterState) (name : String)
    (unit : String := "") (description : String := "") : CreateResult :=
  meterCreate st .upDownCounter name unit description

/-- `PrometheusMeter.create_gauge`. -/
def createGauge (st : MeterState) (name : String)
    (unit : String := "") (description : String := "") : CreateResult :=
  meterCreate st .gauge name unit description

/-- `PrometheusMeter.create_histogram`. -/
def createHistogram (st : MeterState) (name : String)
    (unit : String := "") (description : String := "") : CreateResult :=
  meterCreate st .histogram name unit description

/-- The exception raised by the observable creation methods
(`NotImplementedError` with its message). -/
inductive CreationError
  | notImplementedError (message : String)
deriving DecidableEq, Repr

/-- `PrometheusMeter.create_observable_counter`: raises NotImplementedError
before touching any state; the meter state is returned unchanged so the
exceptional outcome is observable next to it. -/
def createObservableCounter (st : MeterState) (name : String)
    (callbacks : Option (List Unit) := none)
    (unit : String := "") (description : String := "") :
    Except CreationError PInstrument × MeterState :=
  (Except.error (CreationError.notImplementedError
    "Observable/Asynchronous instruments not supported for Prometheus"), st)

/-- `PrometheusMeter.create_observable_up_down_counter`: raises
NotImplementedError before touching any state. -/
def createObservableUpDownCounter (st : MeterState) (name : String)
    (callbacks : Option (List Unit) := none)
    (unit : String := "") (description : String := "") :
    Except CreationError PInstrument × MeterState :=
  (Except.error (CreationError.notImplementedError
    "Observable/Asynchronous instruments not supported for Prometheus"), st)

/-- `PrometheusMeter.create_observable_gauge`: raises NotImplementedError
before touching any state. -/
def createObservableGauge (st : MeterState) (name : String)
    (callbacks : Option (List Unit) := none)
    (unit : String := "") (description : String := "") :
    Except CreationError PInstrument × MeterState :=
  (Except.error (CreationError.notImplementedError
    "Observable/Asynchronous instruments not supported for Prometheus"), st)

/-! ## MeterProvider (`PrometheusMeterProvider.get_meter`) -/

/-- Modelled from the spec: `InstrumentationScope` (imported from the
opentelemetry SDK, not in this repository's source) is "a value type
`(name, version|absent, schema_url|absent)`; two scopes are equal iff all
three fields are equal". -/
structure InstrumentationScope where
  name : String
  version : Option String
  schemaUrl : Option String
deriving DecidableEq, Repr

/-- A constructed `PrometheusMeter` object: allocation id (object identity)
plus the scope it was built for. -/
structure PMeter where
  objId : ℕ
  scope : InstrumentationScope
deriving DecidableEq, Repr

/-- The value `get_meter` returns: either a freshly constructed `NoOpMeter`
(carrying the arguments it was constructed with) or a registered
`PrometheusMeter`. -/
inductive MeterResult
  | noop (objId : ℕ) (name : Option String) (version schemaUrl : Option String)
  | real (m : PMeter)
deriving DecidableEq, Repr

/-- State of one `PrometheusMeterProvider`: the `_meters` dict
(insertion-ordered association list from scope to meter) plus the
allocation counter for constructed meter objects. -/
structure ProviderState where
  meters : List (InstrumentationScope × PMeter)
  nextObjId : ℕ
deriving DecidableEq, Repr

/-- `PrometheusMeterProvider.__init__`: empty meter registry. -/
def providerInit : ProviderState :=
  { meters := [], nextObjId := 0 }

/-- Python truthiness test `not name` for `name: Optional[str]`:
true for `None` and for the empty string. -/
def emptyName : Option String → Bool
  | none => true
  | some s => s.isEmpty

/-- Result of `get_meter`: the meter, whether the empty-name warning was
logged, and the provider state afterwards. -/
structure GetMeterResult where
  meter : MeterResult
  warned : Bool
  state : ProviderState
deriving DecidableEq, Repr

/-- Embedding of `PrometheusMeterProvider.get_meter`: an empty or absent
name logs a warning and returns a freshly constructed `NoOpMeter`
(fresh allocation id, registry untouched); otherwise look the scope up in
`_meters`, construct and insert a `PrometheusMeter` if absent, and return
the registry entry. -/
def getMeter (st : ProviderState) (name : Option String)
    (version : Option String := none) (schemaUrl : Option String := none) :
    GetMeterResult :=
  if emptyName name then
    { meter := .noop st.nextObjId name version schemaUrl, warned := true,
      state := { st with nextObjId := st.nextObjId + 1 } }
  else
    let info : InstrumentationScope := ⟨name.getD "", version, schemaUrl⟩
    match alookup info st.meters with
    | some m => { meter := .real m, warned := false, state := st }
    | none =>
        let m : PMeter := ⟨st.nextObjId, info⟩
        { meter := .real m, warned := false,
          state := { meters := st.meters ++ [(info, m)],
                     nextObjId := st.nextObjId + 1 } }

/-! ## No-op meter and instruments

`NoOpMeter` comes from the opentelemetry API, not from this repository's
source; it is modelled from the spec. -/

/-- Modelled from the spec: a no-op Instrument returned by a no-op Meter's
instrument-creation calls. -/
structure NoOpInstrument where
  kind : InstrKind
  name : String
  unit : String
  description : String
deriving DecidableEq, Repr

/-- Modelled from the spec: "a no-op Meter whose every instrument-creation
call returns a no-op Instrument". -/
def noOpCreateInstrument (kind : InstrKind) (name : String)
    (unit : String := "") (description : String := "") : NoOpInstrument :=
  ⟨kind, name, unit, description⟩

/-- Modelled from the spec: a no-op Instrument "silently discards all
recorded values" — recording returns the instrument unchanged and touches
no backend state. -/
def noOpRecord (i : NoOpInstrument) (amount : ℚ)
    (attributes : Option (List (String × String)) := none) : NoOpInstrument :=
  i

/-! ## Backend storage primitives (prometheus_client Counter/Gauge/Histogram)

Only the state each storage object carries and the operation the adapters
invoke on it (`inc`, `set`, `observe`) are modelled. -/

/-- Backend `prometheus_client.Counter` storage: name (already sanitized by
the adapter), documentation, unit, and the accumulated value. -/
structure CounterMetric where
  name : String
  documentation : String
  unit : String
  value : ℚ
deriving DecidableEq, Repr

/-- `prometheus_client.Counter.inc`. -/
def CounterMetric.inc (m : CounterMetric) (amount : ℚ) : CounterMetric :=
  { m with value := m.value + amount }

/-- Backend `prometheus_client.Gauge` storage. -/
structure GaugeMetric where
  name : String
  documentation : String
  unit : String
  value : ℚ
deriving DecidableEq, Repr

/-- `prometheus_client.Gauge.inc`. -/
def GaugeMetric.inc (m : GaugeMetric) (amount : ℚ) : GaugeMetric :=
  { m with value := m.value + amount }

/-- `prometheus_client.Gauge.set`. -/
def GaugeMetric.set (m : GaugeMetric) (amount : ℚ) : GaugeMetric :=
  { m with value := amount }

/-- The fixed bucket layout `PrometheusHistogram.metric_kw` passes to the
backend histogram constructor. -/
def defaultBuckets : List ℚ :=
  [0, 5, 10, 25, 50, 75, 100, 250, 500, 750, 1000, 2500, 5000, 7500, 10000]

/-- Increment the entry of `l` at index `i` (no change when out of range). -/
def incAt : List ℕ → ℕ → List ℕ
  | [], _ => []
  | n :: rest, 0 => (n + 1) :: rest
  | n :: rest, i + 1 => n :: incAt rest i

/-- Backend `prometheus_client.Histogram` storage: configured upper bounds,
one (non-cumulative) bucket count per bound plus a trailing overflow bucket,
and the running sum. -/
structure HistogramMetric where
  name : String
  documentation : String
  unit : String
  buckets : List ℚ
  bucketCounts : List ℕ
  sum : ℚ
deriving DecidableEq, Repr

/-- `prometheus_client.Histogram.observe`: increment the bucket of the first
upper bound that is at least the amount (the trailing overflow bucket when
none is) and add the amount to the sum.  `List.findIdx` returns the list
length when no bound qualifies, which is exactly the overflow index. -/
def HistogramMetric.observe (m : HistogramMetric) (amount : ℚ) :
    HistogramMetric :=
  { m with
    bucketCounts := incAt m.bucketCounts (m.buckets.findIdx (amount ≤ ·)),
    sum := m.sum + amount }

/-! ## Instrument adapters

Each adapter owns exactly one backend storage object (`self._metric`,
field `metricObj` here), allocated at construction under the sanitized
name.  `PrometheusMetric.metric(attributes)` returns that single object and
ignores its `attributes` argument.  Guarded operations return a
`warned : Bool` next to the new adapter state; the source logs the warning
and returns without raising. -/

/-- `PrometheusCounter` adapter state. -/
structure PrometheusCounter where
  name : String
  unit : String
  description : String
  metricObj : CounterMetric
deriving DecidableEq, Repr

/-- `PrometheusMetric.__init__` specialised to `PrometheusCounter`:
backend storage is allocated under the sanitized name, with description and
unit passed through. -/
def PrometheusCounter.make (name : String) (unit : String := "")
    (description : String := "") : PrometheusCounter :=
  { name, unit, description,
    metricObj := { name := sanitize name, documentation := description,
                   unit := unit, value := 0 } }

/-- `PrometheusMetric.metric` on a counter: returns `self._metric`,
ignoring `attributes`. -/
def PrometheusCounter.metric (c : PrometheusCounter)
    (attributes : Option (List (String × String)) := none) : CounterMetric :=
  c.metricObj

/-- `PrometheusCounter.add`: a negative amount logs a warning and returns
with no state change; otherwise `self.metric(attributes).inc(amount)`. -/
def PrometheusCounter.add (c : PrometheusCounter) (amount : ℚ)
    (attributes : Option (List (String × String)) := none) :
    Bool × PrometheusCounter :=
  if amount < 0 then (true, c)
  else (false, { c with metricObj := (c.metric attributes).inc amount })

/-- `PrometheusUpDownCounter` adapter state (backend storage is a Gauge). -/
structure PrometheusUpDownCounter where
  name : String
  unit : String
  description : String
  metricObj : GaugeMetric
deriving DecidableEq, Repr

/-- `PrometheusMetric.metric` on an up-down counter. -/
def PrometheusUpDownCounter.metric (c : PrometheusUpDownCounter)
    (attributes : Option (List (String × String)) := none) : GaugeMetric :=
  c.metricObj

/-- `PrometheusUpDownCounter.add`: `self.metric(attributes).inc(amount)`,
any signed amount accepted. -/
def PrometheusUpDownCounter.add (c : PrometheusUpDownCounter) (amount : ℚ)
    (attributes : Option (List (String × String)) := none) :
    PrometheusUpDownCounter :=
  { c with metricObj := (c.metric attributes).inc amount }

/-- `PrometheusGauge` adapter state. -/
structure PrometheusGauge where
  name : String
  unit : String
  description : String
  metricObj : GaugeMetric
deriving DecidableEq, Repr

/-- `PrometheusMetric.metric` on a gauge. -/
def PrometheusGauge.metric (c : PrometheusGauge)
    (attributes : Option (List (String × String)) := none) : GaugeMetric :=
  c.metricObj

/-- `PrometheusGauge.set`: `self.metric(attributes).set(amount)`. -/
def PrometheusGauge.set (c : PrometheusGauge) (amount : ℚ)
    (attributes : Option (List (String × String)) := none) : PrometheusGauge :=
  { c with metricObj := (c.metric attributes).set amount }

/-- `PrometheusHistogram` adapter state. -/
structure PrometheusHistogram where
  name : String
  unit : String
  description : String
  metricObj : HistogramMetric
deriving DecidableEq, Repr

/-- `PrometheusMetric.__init__` specialised to `PrometheusHistogram`:
backend storage under the sanitized name with the fixed default bucket
layout (plus the trailing overflow bucket). -/
def PrometheusHistogram.make (name : String) (unit : String := "")
    (description : String := "") : PrometheusHistogram :=
  { name, unit, description,
    metricObj := { name := sanitize name, documentation := description,
                   unit := unit, buckets := defaultBuckets,
                   bucketCounts := List.replicate (defaultBuckets.length + 1) 0,
                   sum := 0 } }

/-- `PrometheusMetric.metric` on a histogram. -/
def PrometheusHistogram.metric (c : PrometheusHistogram)
    (attributes : Option (List (String × String)) := none) : HistogramMetric :=
  c.metricObj

/-- `PrometheusHistogram.record`: a negative amount logs a warning and
returns with no state change; otherwise
`self.metric(attributes).observe(amount)`. -/
def PrometheusHistogram.record (c : PrometheusHistogram) (amount : ℚ)
    (attributes : Option (List (String × String)) := none) :
    Bool × PrometheusHistogram :=
  if amount < 0 then (true, c)
  else (false, { c with metricObj := (c.metric attributes).observe amount })

/-! ## Multiprocess sample merger (`_multi_samples_with_labels`) -/

/-- One low-level sample triple yielded by a child shard's `_samples()`:
name suffix, extra labels (dict iteration order), value, optional timestamp,
optional exemplar (kept opaque as a string). -/
structure RawSample where
  suffix : String
  sampleLabels : List (String × String)
  value : ℚ
  timestamp : Option ℚ
  exemplar : Option String
deriving DecidableEq, Repr

/-- A per-label-set child storage object, by its `_samples()` output. -/
structure ChildMetric where
  samples : List RawSample
deriving DecidableEq, Repr

/-- An exposition `Sample` (prometheus_client.samples.Sample): name, label
dict (insertion-ordered association list), value, timestamp, exemplar. -/
structure Sample where
  name : String
  labels : List (String × String)
  value : ℚ
  timestamp : Option ℚ
  exemplar : Option String
deriving DecidableEq, Repr

/-- A sharded metric as `_multi_samples_with_labels` sees it: its
`_labelnames` and the snapshot of its `_metrics` dict in iteration order. -/
structure MultiMetric where
  labelnames : List String
  metrics : List (List String × ChildMetric)
deriving DecidableEq, Repr

/-- One step of Python `dict(pairs)` construction: an existing key keeps its
position but takes the new value; a new key is appended. -/
def dictInsert (acc : List (String × String)) (kv : String × String) :
    List (String × String) :=
  if acc.any (fun p => p.1 == kv.1)
  then acc.map (fun p => if p.1 == kv.1 then (p.1, kv.2) else p)
  else acc ++ [kv]

/-- Python `dict(pairs)`: fold the pairs into an insertion-ordered dict. -/
def pyDict (l : List (String × String)) : List (String × String) :=
  l.foldl dictInsert []

/-- The inner loop of `_multi_samples_with_labels` for one `(labels, metric)`
pair: one `Sample` per child sample, with labels
`dict(series_labels + list(sample_labels.items()))` and value, timestamp and
exemplar passed through. -/
def emitShard (labelnames labels : List String) (child : ChildMetric) :
    List Sample :=
  child.samples.map fun s =>
    { name := s.suffix,
      labels := pyDict (labelnames.zip labels ++ s.sampleLabels),
      value := s.value, timestamp := s.timestamp, exemplar := s.exemplar }

/-- The generator loop of `_multi_samples_with_labels` over the snapshot. -/
def multiSamplesGo (labelnames : List String) :
    List (List String × ChildMetric) → List Sample
  | [] => []
  | (labels, child) :: rest =>
      emitShard labelnames labels child ++ multiSamplesGo labelnames rest

/-- Embedding of `_multi_samples_with_labels`: snapshot `_metrics` under the
lock, then yield the merged samples shard by shard. -/
def multiSamplesWithLabels (m : MultiMetric) : List Sample :=
  multiSamplesGo m.labelnames m.metrics

/-! # Theorems -/

/-- C3 (counterexample): the claim says two adjacent illegal characters
yield a single underscore; on input `"a!!b"` the source sanitizer yields
`"a__b"` (one underscore per illegal character), while the run-collapsing
behaviour the claim describes yields `"a_b"`. -/
theorem sanitize_run_collapse_counterexample :
    sanitize "a!!b" = "a__b" ∧
    sanitizeSpecCollapse "a!!b" = "a_b" ∧
    sanitize "a!!b" ≠ sanitizeSpecCollapse "a!!b" := by
  refine ⟨by decide, by decide, by decide⟩

/-- C3 (amended): the sanitizer replaces each single character that is not
alphanumeric or underscore with one underscore (so a run of k illegal
characters yields k underscores), leaves alphanumeric and underscore
characters unchanged, preserves length, and is idempotent. -/
theorem sanitize_per_char (s : String) (i : ℕ) :
    (sanitize s).length = s.length ∧
    (sanitize s).data[i]? =
      (s.data[i]?).map (fun c => if c.isAlphanum || c == '_' then c else '_') ∧
    sanitize (sanitize s) = sanitize s := by
  refine ⟨?_, ?_, ?_⟩
  · show (s.data.map sanitizeChar).length = s.data.length
    exact List.length_map _ _
  · show (s.data.map sanitizeChar)[i]? = _
    rw [List.getElem?_map]
    cases h : s.data[i]? <;> simp [sanitizeChar]
  · show String.mk ((s.data.map sanitizeChar).map sanitizeChar)
        = String.mk (s.data.map sanitizeChar)
    rw [List.map_map]
    exact congrArg String.mk (List.map_congr_left (fun a _ => sanitizeChar_idem a))

/-- C4: on a Counter, `add` with a negative amount logs the warning and
leaves the adapter (hence its backend counter) unchanged; on a Histogram,
`record` with a negative amount logs the warning and leaves the backend
distribution unchanged.  Both are total functions returning normally. -/
theorem negative_amount_rejected (c : PrometheusCounter)
    (hg : PrometheusHistogram) (amount : ℚ)
    (attributes : Option (List (String × String))) (hneg : amount < 0) :
    PrometheusCounter.add c amount attributes = (true, c) ∧
    PrometheusHistogram.record hg amount attributes = (true, hg) := by
  constructor <;>
    simp [PrometheusCounter.add, PrometheusHistogram.record, hneg]

/-- C4 (witness): concrete evaluation at amount `-1`. -/
theorem negative_amount_rejected_witness :
    (-1 : ℚ) < 0 ∧
    (PrometheusCounter.add (PrometheusCounter.make "c") (-1) none
        = (true, PrometheusCounter.make "c") ∧
     PrometheusHistogram.record (PrometheusHistogram.make "h") (-1) none
        = (true, PrometheusHistogram.make "h")) :=
  ⟨by norm_num,
   negative_amount_rejected (PrometheusCounter.make "c")
     (PrometheusHistogram.make "h") (-1) none (by norm_num)⟩

/-- C5: each observable creation method fails with the
NotImplementedError and returns the meter state unchanged — no instrument
is ever created and the registry is untouched. -/
theorem observable_creation_fails (st : MeterState)
    (name unit description : String) (callbacks : Option (List Unit)) :
    createObservableCounter st name callbacks unit description
      = (Except.error (CreationError.notImplementedError
          "Observable/Asynchronous instruments not supported for Prometheus"),
         st) ∧
    createObservableUpDownCounter st name callbacks unit description
      = (Except.error (CreationError.notImplementedError
          "Observable/Asynchronous instruments not supported for Prometheus"),
         st) ∧
    createObservableGauge st name callbacks unit description
      = (Except.error (CreationError.notImplementedError
          "Observable/Asynchronous instruments not supported for Prometheus"),
         st) :=
  ⟨rfl, rfl, rfl⟩

/-- C9: the `attributes` argument is ignored by every recording operation:
`metric` returns the same single backend storage object for any attributes
(including none), and `add`/`set`/`record` produce identical results for
any two attribute dicts. -/
theorem attributes_ignored (c : PrometheusCounter) (u : PrometheusUpDownCounter)
    (g : PrometheusGauge) (hg : PrometheusHistogram) (amount : ℚ)
    (a1 a2 : Option (List (String × String))) :
    c.metric a1 = c.metric a2 ∧
    u.metric a1 = u.metric a2 ∧
    g.metric a1 = g.metric a2 ∧
    hg.metric a1 = hg.metric a2 ∧
    PrometheusCounter.add c amount a1 = PrometheusCounter.add c amount a2 ∧
    PrometheusUpDownCounter.add u amount a1
      = PrometheusUpDownCounter.add u amount a2 ∧
    PrometheusGauge.set g amount a1 = PrometheusGauge.set g amount a2 ∧
    PrometheusHistogram.record hg amount a1
      = PrometheusHistogram.record hg amount a2 :=
  ⟨rfl, rfl, rfl, rfl, rfl, rfl, rfl, rfl⟩

/-- C1: calling `_create` (hence any of create_counter /
create_up_down_counter / create_gauge / create_histogram, which are
`meterCreate` at the four kinds) twice sequentially with the same
(name, kind, unit, description) returns the identical instrument the first
call returned, leaves the state unchanged on the second call, and the
registry maps that identity to that single instrument. -/
theorem create_same_identity_idempotent (st : MeterState) (kind : InstrKind)
    (name unit description : String) :
    (meterCreate (meterCreate st kind name unit description).state
        kind name unit description).instrument
      = (meterCreate st kind name unit description).instrument ∧
    (meterCreate (meterCreate st kind name unit description).state
        kind name unit description).state
      = (meterCreate st kind name unit description).state ∧
    alookup (⟨name, kind, unit, description⟩ : InstrumentIdentity)
        (meterCreate (meterCreate st kind name unit description).state
          kind name unit description).state.instrumentIdInstrument
      = some (meterCreate st kind name unit description).instrument := by
  cases h : alookup (⟨name, kind, unit, description⟩ : InstrumentIdentity)
      st.instrumentIdInstrument with
  | some i =>
      simp [meterCreate, isInstrumentRegistered, h]
  | none =>
      have h2 := alookup_append_none
        (⟨name, kind, unit, description⟩ : InstrumentIdentity)
        st.instrumentIdInstrument
        (⟨st.nextObjId, kind, name, unit, description, sanitize name⟩ :
          PInstrument) h
      simp [meterCreate, isInstrumentRegistered, h, h2]

/-- C2: for a non-empty name and any version and schema_url, a second
`get_meter` call with the equal scope returns the identical meter object
the first call returned and leaves the provider state unchanged. -/
theorem get_meter_idempotent (st : ProviderState) (name : String)
    (version schemaUrl : Option String) (h : name.isEmpty = false) :
    (getMeter (getMeter st (some name) version schemaUrl).state
        (some name) version schemaUrl).meter
      = (getMeter st (some name) version schemaUrl).meter ∧
    (getMeter (getMeter st (some name) version schemaUrl).state
        (some name) version schemaUrl).state
      = (getMeter st (some name) version schemaUrl).state := by
  cases h2 : alookup (⟨name, version, schemaUrl⟩ : InstrumentationScope)
      st.meters with
  | some m =>
      simp [getMeter, emptyName, h, h2]
  | none =>
      have h3 := alookup_append_none
        (⟨name, version, schemaUrl⟩ : InstrumentationScope) st.meters
        (⟨st.nextObjId, ⟨name, version, schemaUrl⟩⟩ : PMeter) h2
      simp [getMeter, emptyName, h, h2, h3]

/-- C2 (witness): two `get_meter` calls with scope `("app", none, none)` on
a fresh provider. -/
theorem get_meter_idempotent_witness :
    ("app" : String).isEmpty = false ∧
    ((getMeter (getMeter providerInit (some "app") none none).state
        (some "app") none none).meter
      = (getMeter providerInit (some "app") none none).meter ∧
     (getMeter (getMeter providerInit (some "app") none none).state
        (some "app") none none).state
      = (getMeter providerInit (some "app") none none).state) :=
  ⟨rfl, get_meter_idempotent providerInit "app" none none rfl⟩

/-- C6: `get_meter` with an empty or absent name logs the warning and
returns a freshly constructed no-op meter — never a null reference and
never an exception — the scope registry is unchanged, and the no-op meter's
instrument-creation calls return no-op instruments whose recording calls
discard the value. -/
theorem get_meter_empty_name_noop (st : ProviderState) (name : Option String)
    (version schemaUrl : Option String) (h : emptyName name = true) :
    getMeter st name version schemaUrl =
      { meter := .noop st.nextObjId name version schemaUrl, warned := true,
        state := { st with nextObjId := st.nextObjId + 1 } } ∧
    (getMeter st name version schemaUrl).state.meters = st.meters ∧
    (∀ i amount attributes, noOpRecord i amount attributes = i) ∧
    (∀ kind n u d, noOpCreateInstrument kind n u d
      = (⟨kind, n, u, d⟩ : NoOpInstrument)) := by
  refine ⟨by simp [getMeter, h], by simp [getMeter, h],
    fun i amount attributes => rfl, fun kind n u d => rfl⟩

/-- C6 (witness): `get_meter("")` on a fresh provider. -/
theorem get_meter_empty_name_noop_witness :
    emptyName (some "") = true ∧
    (getMeter providerInit (some "") none none =
      { meter := .noop providerInit.nextObjId (some "") none none,
        warned := true,
        state := { providerInit with
                    nextObjId := providerInit.nextObjId + 1 } } ∧
     (getMeter providerInit (some "") none none).state.meters
        = providerInit.meters ∧
     (∀ i amount attributes, noOpRecord i amount attributes = i) ∧
     (∀ kind n u d, noOpCreateInstrument kind n u d
        = (⟨kind, n, u, d⟩ : NoOpInstrument))) :=
  ⟨rfl, get_meter_empty_name_noop providerInit (some "") none none rfl⟩

/-- C10: two `get_meter` calls that both supply an empty or absent name
each construct a fresh no-op meter: the two returned meters are distinct
objects, and the scope registry is untouched by both calls. -/
theorem empty_name_meters_distinct (st : ProviderState)
    (n1 n2 v1 s1 v2 s2 : Option String)
    (h1 : emptyName n1 = true) (h2 : emptyName n2 = true) :
    (getMeter st n1 v1 s1).meter = .noop st.nextObjId n1 v1 s1 ∧
    (getMeter (getMeter st n1 v1 s1).state n2 v2 s2).meter
      = .noop (st.nextObjId + 1) n2 v2 s2 ∧
    (getMeter st n1 v1 s1).meter
      ≠ (getMeter (getMeter st n1 v1 s1).state n2 v2 s2).meter ∧
    (getMeter (getMeter st n1 v1 s1).state n2 v2 s2).state.meters
      = st.meters := by
  refine ⟨by simp [getMeter, h1], by simp [getMeter, h1, h2], ?_,
    by simp [getMeter, h1, h2]⟩
  intro hcontra
  rw [show (getMeter st n1 v1 s1).meter = .noop st.nextObjId n1 v1 s1
        from by simp [getMeter, h1],
      show (getMeter (getMeter st n1 v1 s1).state n2 v2 s2).meter
        = .noop (st.nextObjId + 1) n2 v2 s2
        from by simp [getMeter, h1, h2]] at hcontra
  have : st.nextObjId = st.nextObjId + 1 :=
    (MeterResult.noop.injEq _ _ _ _ _ _ _ _).mp hcontra |>.1
  omega

/-- C10 (witness): `get_meter(None)` then `get_meter("")` on a fresh
provider yield two distinct no-op meters. -/
theorem empty_name_meters_distinct_witness :
    emptyName none = true ∧ emptyName (some "") = true ∧
    ((getMeter providerInit none none none).meter
        = .noop providerInit.nextObjId none none none ∧
     (getMeter (getMeter providerInit none none none).state
        (some "") none none).meter
        = .noop (providerInit.nextObjId + 1) (some "") none none ∧
     (getMeter providerInit none none none).meter
        ≠ (getMeter (getMeter providerInit none none none).state
            (some "") none none).meter ∧
     (getMeter (getMeter providerInit none none none).state
        (some "") none none).state.meters = providerInit.meters) :=
  ⟨rfl, rfl,
   empty_name_meters_distinct providerInit none (some "") none none none none
     rfl rfl⟩

/-- C7: instrument identity is the raw caller-supplied name: two creations
of the same kind, unit and description under names that differ in raw form
but sanitize to the same backend identifier both succeed without the
duplicate warning, return two distinct instrument objects, are registered
under two distinct identities, and their backend storage objects carry the
same (colliding) sanitized name. -/
theorem raw_name_identity_distinct (st : MeterState) (kind : InstrKind)
    (n1 n2 u d : String)
    (h1 : alookup (⟨n1, kind, u, d⟩ : InstrumentIdentity)
      st.instrumentIdInstrument = none)
    (h2 : alookup (⟨n2, kind, u, d⟩ : InstrumentIdentity)
      st.instrumentIdInstrument = none)
    (hne : n1 ≠ n2) (hsan : sanitize n1 = sanitize n2) :
    (⟨n1, kind, u, d⟩ : InstrumentIdentity) ≠ ⟨n2, kind, u, d⟩ ∧
    (meterCreate st kind n1 u d).warned = false ∧
    (meterCreate (meterCreate st kind n1 u d).state kind n2 u d).warned
      = false ∧
    (meterCreate st kind n1 u d).instrument
      ≠ (meterCreate (meterCreate st kind n1 u d).state kind n2 u d).instrument ∧
    alookup (⟨n1, kind, u, d⟩ : InstrumentIdentity)
        ((meterCreate (meterCreate st kind n1 u d).state kind n2 u d).state.instrumentIdInstrument)
      = some (meterCreate st kind n1 u d).instrument ∧
    alookup (⟨n2, kind, u, d⟩ : InstrumentIdentity)
        ((meterCreate (meterCreate st kind n1 u d).state kind n2 u d).state.instrumentIdInstrument)
      = some ((meterCreate (meterCreate st kind n1 u d).state kind n2 u d).instrument) ∧
    ((meterCreate st kind n1 u d).instrument).backendName
      = ((meterCreate (meterCreate st kind n1 u d).state kind n2 u d).instrument).backendName := by
  have hii : (⟨n1, kind, u, d⟩ : InstrumentIdentity) ≠ ⟨n2, kind, u, d⟩ := by
    intro hcontra
    exact hne (congrArg InstrumentIdentity.name hcontra)
  have e1 : meterCreate st kind n1 u d =
      { instrument := ⟨st.nextObjId, kind, n1, u, d, sanitize n1⟩,
        warned := false,
        state := { instrumentIdInstrument := st.instrumentIdInstrument ++
                     [(⟨n1, kind, u, d⟩,
                       ⟨st.nextObjId, kind, n1, u, d, sanitize n1⟩)],
                   nextObjId := st.nextObjId + 1 } } := by
    simp [meterCreate, isInstrumentRegistered, h1]
  have hl2 : alookup (⟨n2, kind, u, d⟩ : InstrumentIdentity)
      (st.instrumentIdInstrument ++
        [(⟨n1, kind, u, d⟩, ⟨st.nextObjId, kind, n1, u, d, sanitize n1⟩)])
      = none := by
    rw [alookup_append_other _ _ _ _ hii]
    exact h2
  have e2 : meterCreate (meterCreate st kind n1 u d).state kind n2 u d =
      { instrument := ⟨st.nextObjId + 1, kind, n2, u, d, sanitize n2⟩,
        warned := false,
        state := { instrumentIdInstrument :=
                     (st.instrumentIdInstrument ++
                       [(⟨n1, kind, u, d⟩,
                         ⟨st.nextObjId, kind, n1, u, d, sanitize n1⟩)]) ++
                     [(⟨n2, kind, u, d⟩,
                       ⟨st.nextObjId + 1, kind, n2, u, d, sanitize n2⟩)],
                   nextObjId := st.nextObjId + 2 } } := by
    rw [e1]
    simp [meterCreate, isInstrumentRegistered, hl2]
  refine ⟨hii, ?_, ?_, ?_, ?_, ?_, ?_⟩
  · rw [e1]
  · rw [e2]
  · rw [e2, e1]
    intro hcontra
    have : st.nextObjId = st.nextObjId + 1 :=
      congrArg PInstrument.objId hcontra
    omega
  · rw [e2, e1]
    show alookup (⟨n1, kind, u, d⟩ : InstrumentIdentity) (_ ++ _) = _
    rw [alookup_append_other _ _ _ _ (Ne.symm hii)]
    exact alookup_append_none _ _ _ h1
  · rw [e2]
    exact alookup_append_none _ _ _ hl2
  · rw [e2, e1]
    exact hsan

/-- C7 (witness): names `"a.b"` and `"a#b"` (same kind, unit, description)
sanitize to the same backend name `"a_b"` yet create two distinct
instruments on a fresh meter. -/
theorem raw_name_identity_distinct_witness :
    alookup (⟨"a.b", .counter, "", ""⟩ : InstrumentIdentity)
      meterInit.instrumentIdInstrument = none ∧
    alookup (⟨"a#b", .counter, "", ""⟩ : InstrumentIdentity)
      meterInit.instrumentIdInstrument = none ∧
    ("a.b" : String) ≠ "a#b" ∧
    sanitize "a.b" = sanitize "a#b" ∧
    ((⟨"a.b", .counter, "", ""⟩ : InstrumentIdentity)
        ≠ ⟨"a#b", .counter, "", ""⟩ ∧
     (meterCreate meterInit .counter "a.b" "" "").warned = false ∧
     (meterCreate (meterCreate meterInit .counter "a.b" "" "").state
        .counter "a#b" "" "").warned = false ∧
     (meterCreate meterInit .counter "a.b" "" "").instrument
        ≠ (meterCreate (meterCreate meterInit .counter "a.b" "" "").state
            .counter "a#b" "" "").instrument ∧
     alookup (⟨"a.b", .counter, "", ""⟩ : InstrumentIdentity)
        ((meterCreate (meterCreate meterInit .counter "a.b" "" "").state
          .counter "a#b" "" "").state.instrumentIdInstrument)
        = some (meterCreate meterInit .counter "a.b" "" "").instrument ∧
     alookup (⟨"a#b", .counter, "", ""⟩ : InstrumentIdentity)
        ((meterCreate (meterCreate meterInit .counter "a.b" "" "").state
          .counter "a#b" "" "").state.instrumentIdInstrument)
        = some ((meterCreate (meterCreate meterInit .counter "a.b" "" "").state
            .counter "a#b" "" "").instrument) ∧
     ((meterCreate meterInit .counter "a.b" "" "").instrument).backendName
        = ((meterCreate (meterCreate meterInit .counter "a.b" "" "").state
            .counter "a#b" "" "").instrument).backendName) :=
  ⟨rfl, rfl, by decide, by decide,
   raw_name_identity_distinct meterInit .counter "a.b" "a#b" "" ""
     rfl rfl (by decide) (by decide)⟩

theorem multiSamplesGo_flatMap (labelnames : List String)
    (l : List (List String × ChildMetric)) :
    multiSamplesGo labelnames l
      = l.flatMap (fun lc => emitShard labelnames lc.1 lc.2) := by
  induction l with
  | nil => rfl
  | cons p rest ih =>
      cases p with
      | mk labels child => simp [multiSamplesGo, ih]

theorem multiSamplesGo_length (labelnames : List String)
    (l : List (List String × ChildMetric)) :
    (multiSamplesGo labelnames l).length
      = (l.map (fun lc => lc.2.samples.length)).sum := by
  induction l with
  | nil => rfl
  | cons p rest ih =>
      cases p with
      | mk labels child => simp [multiSamplesGo, emitShard, ih]

/-- C8: the merger yields exactly one Sample per underlying (shard, child
sample) pair, in shard snapshot iteration order — the output is the
in-order flattening where each emitted Sample's label dict is built from
the concatenation of the shard's own label names/values with the child
sample's extra labels, and value, timestamp and exemplar pass through
unchanged; in particular the output length is the sum of the child sample
counts. -/
theorem multi_samples_merge (m : MultiMetric) :
    multiSamplesWithLabels m =
      m.metrics.flatMap (fun lc => lc.2.samples.map (fun s =>
        ({ name := s.suffix,
           labels := pyDict (m.labelnames.zip lc.1 ++ s.sampleLabels),
           value := s.value, timestamp := s.timestamp,
           exemplar := s.exemplar } : Sample))) ∧
    (multiSamplesWithLabels m).length
      = (m.metrics.map (fun lc => lc.2.samples.length)).sum := by
  constructor
  · rw [multiSamplesWithLabels, multiSamplesGo_flatMap]
    rfl
  · rw [multiSamplesWithLabels, multiSamplesGo_length]

end PromMP
